import Mathlib

/-!
# Verification of hi_diff/archs/Transformer_arch.py

A shallow embedding of the HI-Diff Transformer architecture file
(src/hi_diff/archs/Transformer_arch.py) at two levels:

* a shape semantics: every tensor operation of the forward pass is modelled
  as a partial function on tensor shapes (lists of dimension sizes), with
  `none` standing for the fatal shape errors raised by the tensor framework;
* a value semantics over the reals for the normalization layers and the
  attention core, and a symbolic semantics (opaque submodule functions) for
  the module composition of `Transformer.forward`, `BasicLayer.forward`,
  `Attention.forward` and `FeedForward.forward`.

Lines quoted in doc comments refer to src/hi_diff/archs/Transformer_arch.py.
-/

namespace TransformerArch

/-- A tensor shape: the list of dimension sizes, outermost first.
A 4-D image tensor (b, c, h, w) is `[b, c, h, w]`. -/
abbrev Shape := List ℕ

/-- Broadcast of a single pair of dimension sizes, PyTorch semantics:
equal sizes broadcast to themselves, a size of 1 broadcasts to the other. -/
def broadcastDim (x y : ℕ) : Option ℕ :=
  if x = y then some x
  else if x = 1 then some y
  else if y = 1 then some x
  else none

/-- Broadcast of two shapes given in reversed (innermost-first) order;
a missing leading dimension is treated as 1. -/
def bcastRev : List ℕ → List ℕ → Option (List ℕ)
  | [], ys => some ys
  | xs, [] => some xs
  | x :: xs, y :: ys => do
      let d ← broadcastDim x y
      let rest ← bcastRev xs ys
      some (d :: rest)

/-- PyTorch broadcasting of two shapes (alignment from the trailing axis). -/
def broadcastShape (s t : Shape) : Option Shape :=
  (bcastRev s.reverse t.reverse).map List.reverse

/-- Shape of a 2-D convolution with `cin` input channels and `cout` output
channels that preserves the spatial size (the file only uses 1x1 convolutions
and 3x3 convolutions with stride 1 and padding 1, both spatial-preserving).
The input must be 4-D with channel count exactly `cin`. -/
def conv2dShape (cin cout : ℕ) : Shape → Option Shape
  | [b, c, h, w] => if c = cin then some [b, cout, h, w] else none
  | _ => none

/-- Shape of `nn.Linear(din, dout)`: the trailing axis must be exactly `din`
and becomes `dout`; leading axes are preserved. -/
def linearShape (din dout : ℕ) : Shape → Option Shape
  | [] => none
  | [x] => if x = din then some [dout] else none
  | x :: xs => (linearShape din dout xs).map (x :: ·)

/-- Shape of `nn.PixelUnshuffle(2)`: spatial axes must be even; channels
quadruple and spatial sizes halve. -/
def pixelUnshuffle2Shape : Shape → Option Shape
  | [b, c, h, w] => if h % 2 = 0 ∧ w % 2 = 0 then some [b, 4 * c, h / 2, w / 2] else none
  | _ => none

/-- Shape of `nn.PixelShuffle(2)`: channels must be divisible by 4; channels
quarter and spatial sizes double. -/
def pixelShuffle2Shape : Shape → Option Shape
  | [b, c, h, w] => if c % 4 = 0 then some [b, c / 4, 2 * h, 2 * w] else none
  | _ => none

/-- Shape of `x.permute(0, 2, 1)` on a 3-D tensor. -/
def permute021Shape : Shape → Option Shape
  | [a, x, y] => some [a, y, x]
  | _ => none

/-- Shape of `x.flatten(1)`: all axes after the batch axis are merged
(start dimension 1 must exist). -/
def flatten1Shape : Shape → Option Shape
  | [] => none
  | [_] => none
  | b :: rest => some [b, rest.prod]

/-- Shape of a trailing-axis reduction with `keepdim=True`
(`mean(-1, keepdim=True)`, `var(-1, keepdim=True)`): the trailing axis
becomes 1, leading axes are preserved. -/
def lastDimTo1 : Shape → Option Shape
  | [] => none
  | [_] => some [1]
  | x :: xs => (lastDimTo1 xs).map (x :: ·)

/-- Shape of `chunk(parts, dim=1)` on a 4-D tensor as used in the file
(channels always divide evenly there, and downstream code requires it). -/
def chunkDim1Shape (parts : ℕ) : Shape → Option Shape
  | [b, c, h, w] => if c % parts = 0 then some [b, c / parts, h, w] else none
  | _ => none

/-- Shape of `chunk(2, dim=-1)` on a 3-D tensor (used in `HIM.forward`). -/
def chunkLast2Shape : Shape → Option Shape
  | [b, n, c] => if c % 2 = 0 then some [b, n, c / 2] else none
  | _ => none

/-- Shape of `rearrange(x, 'b (head c) h w -> b head c (h w)', head=hd)`:
channels must split as `hd` heads, spatial axes are flattened. -/
def splitHeadsShape (hd : ℕ) : Shape → Option Shape
  | [b, c, h, w] => if c % hd = 0 then some [b, hd, c / hd, h * w] else none
  | _ => none

/-- Shape of `rearrange(out, 'b head c (h w) -> b (head c) h w', head=hd, h=h, w=w)`:
the head axis must equal `hd` and the flattened axis must equal `h * w`. -/
def mergeHeadsShape (hd h w : ℕ) : Shape → Option Shape
  | [b, hd2, c, n] => if hd2 = hd ∧ n = h * w then some [b, hd2 * c, h, w] else none
  | _ => none

/-- Shape of `rearrange(q, 'b n (head c) -> b head n c', head=hd)`. -/
def splitTokHeadsShape (hd : ℕ) : Shape → Option Shape
  | [b, n, c] => if c % hd = 0 then some [b, hd, n, c / hd] else none
  | _ => none

/-- Shape of `rearrange(out, 'b head n c -> b n (head c)', head=hd)`. -/
def mergeTokHeadsShape (hd : ℕ) : Shape → Option Shape
  | [b, hd2, n, c] => if hd2 = hd then some [b, n, hd2 * c] else none
  | _ => none

/-- Shape of `x.transpose(-2, -1)` on a 4-D tensor. -/
def transposeLast2Shape : Shape → Option Shape
  | [a, b, x, y] => some [a, b, y, x]
  | _ => none

/-- Shape of a batched matrix product of two 4-D tensors: trailing matrix
axes contract, leading batch axes broadcast. -/
def matmul4Shape : Shape → Shape → Option Shape
  | [b, hh, m, k], [b2, h2, k2, p] =>
      if k = k2 then do
        let bb ← broadcastDim b b2
        let hb ← broadcastDim hh h2
        some [bb, hb, m, p]
      else none
  | _, _ => none

/-- Shape of `rearrange(x, 'b c h w -> b (h w) c')` (`to_3d`, line 24). -/
def to3dShape : Shape → Option Shape
  | [b, c, h, w] => some [b, h * w, c]
  | _ => none

/-- Shape of `rearrange(x, 'b (h w) c -> b c h w', h=h, w=w)` (`to_4d`,
line 27): the token axis must equal `h * w`. -/
def to4dShape (h w : ℕ) : Shape → Option Shape
  | [b, n, c] => if n = h * w then some [b, c, h, w] else none
  | _ => none

/-- Shape of the body of both LayerNorm variants (lines 42-44 and 59-62):
mean/variance over the trailing axis with keepdim, elementwise arithmetic
broadcast against them, then multiplication by the weight of shape `[dim]`
and (in the with-bias variant) addition of the bias of shape `[dim]`.
The bias-free variant takes the same shapes through the same broadcasts,
so one shape function covers both. -/
def layerNormBodyShape (dim : ℕ) (s : Shape) : Option Shape := do
  let mu ← lastDimTo1 s
  let xm ← broadcastShape s mu
  let sg ← lastDimTo1 s
  let dv ← broadcastShape xm sg
  let wsc ← broadcastShape dv [dim]
  broadcastShape wsc [dim]

/-- Shape of `LayerNorm.forward` (lines 73-75): `to_4d(body(to_3d(x)), h, w)`. -/
def layerNormShape (dim : ℕ) : Shape → Option Shape
  | [b, c, h, w] => do
      let t ← layerNormBodyShape dim [b, h * w, c]
      to4dShape h w t
  | _ => none

/-- Shape of the FiLM-style conditioning in `Attention.forward` /
`FeedForward.forward` (lines 112-115 and 144-147): when a prior is given,
`ln1`/`ln2` (which exist only when the module was built with `group == 1`,
lines 107-109 and 138-140; otherwise attribute access fails) map the prior
from `embed4 = embed_dim * 4` to `dim`, two trailing singleton axes are
added by `unsqueeze`, and `x * k1 + k2` broadcasts. -/
def filmShape (dim embed4 group : ℕ) (x : Shape) : Option Shape → Option Shape
  | some p =>
      if group = 1 then do
        let k1 ← linearShape embed4 dim p
        let xk ← broadcastShape x (k1 ++ [1, 1])
        let k2 ← linearShape embed4 dim p
        broadcastShape xk (k2 ++ [1, 1])
      else none
  | none => some x

/-- Body of `Attention.forward` (lines 142-167) once the input shape has been
destructured as `b, c, h, w = x.shape` (line 143). -/
def attentionShapeCore (dim heads embed4 group b c h w : ℕ) (prior : Option Shape) :
    Option Shape := do
  let x0 ← filmShape dim embed4 group [b, c, h, w] prior
  let qkv ← conv2dShape dim (dim * 3) x0
  let qkv ← conv2dShape (dim * 3) (dim * 3) qkv
  let q ← chunkDim1Shape 3 qkv
  let q4 ← splitHeadsShape heads q
  let k4 ← splitHeadsShape heads q
  let v4 ← splitHeadsShape heads q
  let kT ← transposeLast2Shape k4
  let attn ← matmul4Shape q4 kT
  let attn ← broadcastShape attn [heads, 1, 1]
  let out ← matmul4Shape attn v4
  let out ← mergeHeadsShape heads h w out
  conv2dShape dim dim out

/-- Shape of `Attention.forward` (lines 142-167). -/
def attentionShape (dim heads embed4 group : ℕ) (x : Shape) (prior : Option Shape) :
    Option Shape :=
  match x with
  | [b, c, h, w] => attentionShapeCore dim heads embed4 group b c h w prior
  | _ => none

/-- Shape of `FeedForward.forward` (lines 111-121); `hf` is the
`hidden_features` chosen at construction (line 98). -/
def feedForwardShape (dim hf embed4 group : ℕ) (x : Shape) (prior : Option Shape) :
    Option Shape := do
  let x0 ← filmShape dim embed4 group x prior
  let y ← conv2dShape dim (hf * 2) x0
  let y ← conv2dShape (hf * 2) (hf * 2) y
  let x1 ← chunkDim1Shape 2 y
  let m ← broadcastShape x1 x1
  conv2dShape hf dim m

/-- Shape of `TransformerBlock.forward` (lines 226-230). -/
def transformerBlockShape (dim heads hf embed4 group : ℕ) (x : Shape)
    (prior : Option Shape) : Option Shape := do
  let n1 ← layerNormShape dim x
  let a ← attentionShape dim heads embed4 group n1 prior
  let x1 ← broadcastShape x a
  let n2 ← layerNormShape dim x1
  let f ← feedForwardShape dim hf embed4 group n2 prior
  broadcastShape x1 f

/-- Shape of `HIM.forward` (lines 188-213): cross attention between the
spatial features and the prior, with a residual sum; the scalar scale
multiplication does not change the shape. -/
def himShapeCore (dim heads embed4 b c h w : ℕ) (p : Shape) : Option Shape := do
  let x3 : Shape := [b, h * w, c]
  let xn ← layerNormBodyShape dim x3
  let pn ← layerNormBodyShape embed4 p
  let q ← linearShape dim dim xn
  let kv ← linearShape embed4 (2 * dim) pn
  let k ← chunkLast2Shape kv
  let q4 ← splitTokHeadsShape heads q
  let k4 ← splitTokHeadsShape heads k
  let v4 ← splitTokHeadsShape heads k
  let kT ← transposeLast2Shape k4
  let attn ← matmul4Shape q4 kT
  let out ← matmul4Shape attn v4
  let out ← mergeTokHeadsShape heads out
  let out ← linearShape dim dim out
  let s ← broadcastShape x3 out
  to4dShape h w s

/-- Shape of `HIM.forward` (lines 188-213), destructuring
`B, C, H, W = x.shape` (line 189); see `himShapeCore`. -/
def himShape (dim heads embed4 : ℕ) (x p : Shape) : Option Shape :=
  match x with
  | [b, c, h, w] => himShapeCore dim heads embed4 b c h w p
  | _ => none

/-- `nblocks`-fold sequencing of one block at the shape level (the blocks of a
`BasicLayer` all share one configuration, so they share one shape function). -/
def iterBlocks (f : Shape → Option Shape) : ℕ → Shape → Option Shape
  | 0, x => some x
  | n + 1, x => (f x).bind (iterBlocks f n)

/-- Shape of `BasicLayer.forward` (lines 284-292): when a prior is present and
`group > 1`, the HIM fusion runs once and the blocks then receive no prior;
otherwise every block receives the prior unchanged. -/
def basicLayerShape (dim heads hf embed4 group nblocks : ℕ) (x : Shape)
    (prior : Option Shape) : Option Shape :=
  match prior with
  | some p =>
      if 1 < group then
        (himShape dim heads embed4 x p).bind
          (iterBlocks (fun y => transformerBlockShape dim heads hf embed4 group y none)
            nblocks)
      else
        iterBlocks (fun y => transformerBlockShape dim heads hf embed4 group y (some p))
          nblocks x
  | none =>
      iterBlocks (fun y => transformerBlockShape dim heads hf embed4 group y none)
        nblocks x

/-- Shape of `nn.Upsample(size=(28, 28), mode="bilinear")` (line 335). -/
def upsampleTo28Shape : Shape → Option Shape
  | [b, c, _, _] => some [b, c, 28, 28]
  | _ => none

/-- Shape of `mae_output.view(mae_output.size(0), 64, 14, 14)` (line 450):
`view` requires the element count to match. -/
def viewTo64x14x14Shape : Shape → Option Shape
  | [b, d, n] => if d * n = 64 * 196 then some [b, 64, 14, 14] else none
  | _ => none

/-- Modelled from the spec: the file imports `MaskedAutoencoderViT` from
`hi_diff.archs.mae_encoder`, which is not under src/. The spec (section 4.7)
treats it as an opaque collaborator that, given an image-like tensor, returns
a token sequence of fixed embedding width. The adapter layers of
`Transformer.__init__` fix that output shape: `linear_layer = nn.Linear(50, 14*14)`
(line 332) consumes a token axis of exactly 50, and the `view` to
`(b, 64, 14, 14)` (line 450) fixes the token width at 64, so the encoder
output is modelled as `[b, 50, 64]`. Its patch-embedding convolution consumes
`in_chans` channels (line 321), so the channel count must match. -/
def maeShape (in_chans : ℕ) : Shape → Option Shape
  | [b, c, _, _] => if c = in_chans then some [b, 50, 64] else none
  | _ => none

/-- Shape of `Downsample.forward` (lines 251-259): a 3x3 convolution halving
the channels, then `PixelUnshuffle(2)`. -/
def downsampleShape (n_feat : ℕ) (s : Shape) : Option Shape := do
  let t ← conv2dShape n_feat (n_feat / 2) s
  pixelUnshuffle2Shape t

/-- Shape of `Upsample.forward` (lines 261-269): a 3x3 convolution doubling
the channels, then `PixelShuffle(2)`. -/
def upsampleShape (n_feat : ℕ) (s : Shape) : Option Shape := do
  let t ← conv2dShape n_feat (n_feat * 2) s
  pixelShuffle2Shape t

/-- The constructor configuration of `Transformer` (lines 299-313). The
fractional `ffn_expansion_factor = 2.66` is represented by the pair
`ffnNum / ffnDen = 266 / 100`; `hidden_features = int(dim * 2.66)` (line 98)
is modelled as `dim * ffnNum / ffnDen` in natural division, which agrees with
the float truncation at every channel width the architecture produces
(127, 255, 510, 1021 for dims 48, 96, 192, 384). -/
structure TransformerCfg where
  inp_channels : ℕ := 3
  out_channels : ℕ := 3
  dim : ℕ := 48
  num_blocks : List ℕ := [4, 6, 6, 8]
  num_refinement_blocks : ℕ := 4
  heads : List ℕ := [1, 2, 4, 8]
  ffnNum : ℕ := 266
  ffnDen : ℕ := 100
  group : ℕ := 4
  embed_dim : ℕ := 48
  dual_pixel_task : Bool := false

/-- The default configuration of `Transformer.__init__` (lines 299-313). -/
def defaultCfg : TransformerCfg := {}

/-- `hidden_features` of the `FeedForward` at channel width `d` (line 98). -/
def TransformerCfg.hf (cfg : TransformerCfg) (d : ℕ) : ℕ :=
  d * cfg.ffnNum / cfg.ffnDen

/-- Shape of `self.down_1(prior_1)` (lines 342-347, applied at line 407):
`Rearrange` / `Linear(group*group, group*group // 4)` / `Rearrange` /
`Linear(embed_dim*4, embed_dim*4)`. -/
def down1Shape (cfg : TransformerCfg) (p1 : Shape) : Option Shape := do
  let t ← permute021Shape p1
  let t ← linearShape (cfg.group * cfg.group) (cfg.group * cfg.group / 4) t
  let t ← permute021Shape t
  linearShape (cfg.embed_dim * 4) (cfg.embed_dim * 4) t

/-- Shape of `self.down_2(prior_2).flatten(1)` (lines 348-353, applied at
line 408). -/
def down2FlattenShape (cfg : TransformerCfg) (p2 : Shape) : Option Shape := do
  let u ← permute021Shape p2
  let u ← linearShape (cfg.group * cfg.group / 4) 1 u
  let u ← permute021Shape u
  let u ← linearShape (cfg.embed_dim * 4) (cfg.embed_dim * 4) u
  flatten1Shape u

/-- Shape of the MAE adapter chain (lines 445-457): the MAE encoder followed
by `permute(0, 2, 1)`, `linear_layer` (50 to 196), `view` to
`(b, 64, 14, 14)`, `channel_expand_layer` (64 to 384), `conv_layer`
(384 to 384) and bilinear upsampling to 28 x 28. -/
def maeAdapterShape (cfg : TransformerCfg) (x : Shape) : Option Shape := do
  let mo ← maeShape cfg.inp_channels x
  let mo ← permute021Shape mo
  let mo ← linearShape 50 196 mo
  let mo ← viewTo64x14x14Shape mo
  let mo ← conv2dShape 64 384 mo
  let mo ← conv2dShape 384 384 mo
  upsampleTo28Shape mo

/-- Shape of the decoder path (lines 459-475): latent stage at a fixed
28 x 28 resolution, then three upsampling decoder levels and the refinement
stage. The hard-coded `channel_increase_layer_level3/2/1` sizes (192 to 384,
96 to 192, 48 to 96, lines 337-339) are literal. -/
def decoderShape (cfg : TransformerCfg) (mo p1 p2 p3 : Shape) : Option Shape := do
  let d := cfg.dim
  let e4 := cfg.embed_dim * 4
  let lat ← basicLayerShape (8 * d) (cfg.heads.getD 3 1) (cfg.hf (8 * d)) e4 1
      (cfg.num_blocks.getD 3 1) mo (some p3)
  let t3 ← upsampleShape (8 * d) lat
  let t3 ← conv2dShape 192 384 t3
  let t3 ← conv2dShape (8 * d) (4 * d) t3
  let t3 ← basicLayerShape (4 * d) (cfg.heads.getD 2 1) (cfg.hf (4 * d)) e4
      (cfg.group / 2) (cfg.num_blocks.getD 2 1) t3 (some p2)
  let t2 ← upsampleShape (4 * d) t3
  let t2 ← conv2dShape 96 192 t2
  let t2 ← conv2dShape (4 * d) (2 * d) t2
  let t2 ← basicLayerShape (2 * d) (cfg.heads.getD 1 1) (cfg.hf (2 * d)) e4
      (cfg.group / 2) (cfg.num_blocks.getD 1 1) t2 (some p2)
  let t1 ← upsampleShape (2 * d) t2
  let t1 ← conv2dShape 48 96 t1
  let t1 ← basicLayerShape (2 * d) (cfg.heads.getD 0 1) (cfg.hf (2 * d)) e4
      cfg.group (cfg.num_blocks.getD 0 1) t1 (some p1)
  basicLayerShape (2 * d) (cfg.heads.getD 0 1) (cfg.hf (2 * d)) e4
      cfg.group cfg.num_refinement_blocks t1 (some p1)

/-- Shape semantics of `Transformer.forward` (lines 400-487), following the
active (uncommented) code path. `prior = none` models a call with the default
`prior=None`; the first use of the prior is `self.down_1(prior_1)` (line 407),
whose leading einops `Rearrange` raises on `None`, modelled as `none`.
`channel_reducer` is a hard-coded 48-to-3 convolution (line 358). In the
dual-pixel branch, `skip_conv` is applied to the reassigned (channel-reduced)
`inp_enc_level1` (lines 443 and 481). -/
def transformerShape (cfg : TransformerCfg) (inp : Shape) (prior : Option Shape) :
    Option Shape := do
  let d := cfg.dim
  -- multi-scale prior (lines 405-408)
  let p1 ← prior
  let p2 ← down1Shape cfg p1
  let p3 ← down2FlattenShape cfg p2
  -- patch embedding and channel reduction (lines 441-443)
  let x ← conv2dShape cfg.inp_channels d inp
  let x ← conv2dShape 48 3 x
  -- MAE encoder and adapters (lines 445-457)
  let mo ← maeAdapterShape cfg x
  -- latent and decoder stages (lines 459-475)
  let t1 ← decoderShape cfg mo p1 p2 p3
  -- output projection and residual (lines 479-487)
  if cfg.dual_pixel_task then
    let s ← conv2dShape d (2 * d) x
    let t1 ← broadcastShape t1 s
    conv2dShape (2 * d) cfg.out_channels t1
  else
    let o ← conv2dShape (2 * d) cfg.out_channels t1
    broadcastShape o inp

/-!
## Symbolic value semantics of the module composition

Submodules with learned weights are modelled as opaque functions (the weights
are baked into the function), and the primitive tensor-library operations the
forward passes invoke are collected in `TensorOps`. This level captures which
submodules execute, in which order, and with which prior — while leaving the
numerics opaque.
-/

/-- The tensor-library primitives used by the forward passes, over an abstract
tensor type `T`. -/
structure TensorOps (T : Type) where
  /-- elementwise/broadcast addition `x + y` -/
  add : T → T → T
  /-- elementwise/broadcast multiplication `x * y` -/
  mul : T → T → T
  /-- `t.unsqueeze(-1).unsqueeze(-1)` -/
  unsqueeze2 : T → T
  /-- `F.gelu` -/
  gelu : T → T
  /-- `t.chunk(2, dim=1)` -/
  chunk2 : T → T × T
  /-- `t.chunk(3, dim=1)` -/
  chunk3 : T → T × T × T
  /-- `rearrange(t, 'b (head c) h w -> b head c (h w)')` -/
  splitHeads : T → T
  /-- `rearrange(t, 'b head c (h w) -> b (head c) h w')` -/
  mergeHeads : T → T
  /-- `torch.nn.functional.normalize(t, dim=-1)` -/
  normalize : T → T
  /-- `t.transpose(-2, -1)` -/
  transposeLast2 : T → T
  /-- `a @ b` -/
  matmul : T → T → T
  /-- `t.softmax(dim=-1)` -/
  softmax : T → T
  /-- `t.permute(0, 2, 1)` -/
  permute021 : T → T
  /-- `t.view(t.size(0), 64, 14, 14)` -/
  view64x14x14 : T → T
  /-- `t.flatten(1)` -/
  flatten1 : T → T

/-- `FeedForward` (lines 94-121): the convolution submodules are opaque
functions; `ln1`/`ln2` exist exactly when the module was constructed with
`group == 1` (lines 107-109), hence the `Option`. -/
structure FeedForwardM (T : Type) where
  project_in : T → T
  dwconv : T → T
  project_out : T → T
  ln1 : Option (T → T)
  ln2 : Option (T → T)

/-- `FeedForward.forward` (lines 111-121). Accessing the absent `ln1` on a
module built with `group != 1` raises `AttributeError`, modelled as
`Except.error`. -/
def FeedForwardM.forward {T : Type} (ops : TensorOps T) (m : FeedForwardM T)
    (x : T) (prior : Option T) : Except Unit T := do
  let x ← match prior with
    | some p =>
        match m.ln1, m.ln2 with
        | some l1, some l2 =>
            Except.ok (ops.add (ops.mul x (ops.unsqueeze2 (l1 p))) (ops.unsqueeze2 (l2 p)))
        | _, _ => Except.error ()
    | none => Except.ok x
  let y := m.dwconv (m.project_in x)
  let x1 := (ops.chunk2 y).1
  let x2 := (ops.chunk2 y).2
  Except.ok (m.project_out (ops.mul (ops.gelu x1) x2))

/-- `Attention` (lines 127-167): submodules opaque, `ln1`/`ln2` present
exactly when built with `group == 1` (lines 138-140). -/
structure AttentionM (T : Type) where
  temperature : T
  qkv : T → T
  qkv_dwconv : T → T
  project_out : T → T
  ln1 : Option (T → T)
  ln2 : Option (T → T)

/-- `Attention.forward` (lines 142-167). -/
def AttentionM.forward {T : Type} (ops : TensorOps T) (m : AttentionM T)
    (x : T) (prior : Option T) : Except Unit T := do
  let x ← match prior with
    | some p =>
        match m.ln1, m.ln2 with
        | some l1, some l2 =>
            Except.ok (ops.add (ops.mul x (ops.unsqueeze2 (l1 p))) (ops.unsqueeze2 (l2 p)))
        | _, _ => Except.error ()
    | none => Except.ok x
  let qkv := m.qkv_dwconv (m.qkv x)
  let q := (ops.chunk3 qkv).1
  let k := (ops.chunk3 qkv).2.1
  let v := (ops.chunk3 qkv).2.2
  let q := ops.normalize (ops.splitHeads q)
  let k := ops.normalize (ops.splitHeads k)
  let v := ops.splitHeads v
  let attn := ops.softmax (ops.mul (ops.matmul q (ops.transposeLast2 k)) m.temperature)
  Except.ok (m.project_out (ops.mergeHeads (ops.matmul attn v)))

/-- `TransformerBlock` (lines 217-230). -/
structure TransformerBlockM (T : Type) where
  norm1 : T → T
  attn : AttentionM T
  norm2 : T → T
  ffn : FeedForwardM T

/-- `TransformerBlock.forward` (lines 226-230). -/
def TransformerBlockM.forward {T : Type} (ops : TensorOps T) (m : TransformerBlockM T)
    (x : T) (prior : Option T) : Except Unit T := do
  let a ← m.attn.forward ops (m.norm1 x) prior
  let x := ops.add x a
  let f ← m.ffn.forward ops (m.norm2 x) prior
  Except.ok (ops.add x f)

/-- The opaque submodules of one `TransformerBlock`, as handed to the
constructors (line 218): the FiLM projections `attn_ln1` etc. are the
functions used when `group == 1`. -/
structure TransformerBlockCfg (T : Type) where
  norm1 : T → T
  qkv : T → T
  qkv_dwconv : T → T
  attn_project_out : T → T
  attn_temperature : T
  attn_ln1 : T → T
  attn_ln2 : T → T
  norm2 : T → T
  project_in : T → T
  dwconv : T → T
  ffn_project_out : T → T
  ffn_ln1 : T → T
  ffn_ln2 : T → T

/-- `Attention.__init__` (lines 128-140): `ln1`/`ln2` are created only when
`group == 1`. -/
def mkAttention {T : Type} (group : ℕ) (c : TransformerBlockCfg T) : AttentionM T where
  temperature := c.attn_temperature
  qkv := c.qkv
  qkv_dwconv := c.qkv_dwconv
  project_out := c.attn_project_out
  ln1 := if group = 1 then some c.attn_ln1 else none
  ln2 := if group = 1 then some c.attn_ln2 else none

/-- `FeedForward.__init__` (lines 95-109): `ln1`/`ln2` only when `group == 1`. -/
def mkFeedForward {T : Type} (group : ℕ) (c : TransformerBlockCfg T) : FeedForwardM T where
  project_in := c.project_in
  dwconv := c.dwconv
  project_out := c.ffn_project_out
  ln1 := if group = 1 then some c.ffn_ln1 else none
  ln2 := if group = 1 then some c.ffn_ln2 else none

/-- `TransformerBlock.__init__` (lines 218-224): attention and feed-forward
are built with the same `group`. -/
def mkTransformerBlock {T : Type} (group : ℕ) (c : TransformerBlockCfg T) :
    TransformerBlockM T where
  norm1 := c.norm1
  attn := mkAttention group c
  norm2 := c.norm2
  ffn := mkFeedForward group c

/-- `BasicLayer` (lines 272-292). The field `him` stands for the fusion
submodule `self.him`; in the source the attribute is created only when
`group > 1` (lines 281-282) and `forward` reads it only under the same
condition, so it is modelled as an always-present function. -/
structure BasicLayerM (T : Type) where
  group : ℕ
  blocks : List (TransformerBlockM T)
  him : T → T → T

/-- `BasicLayer.forward` (lines 284-292): if a prior is supplied and
`group > 1`, the HIM fusion runs once and the prior is cleared to `None`
before the blocks run; every block then receives the (possibly cleared)
prior. -/
def BasicLayerM.forward {T : Type} (ops : TensorOps T) (m : BasicLayerM T)
    (x : T) (prior : Option T) : Except Unit T :=
  let fused : T × Option T :=
    match prior with
    | some p => if 1 < m.group then (m.him x p, none) else (x, some p)
    | none => (x, none)
  m.blocks.foldlM (fun a blk => blk.forward ops a fused.2) fused.1

/-- `BasicLayer.__init__` (lines 273-282): all blocks are built with the
layer's own `group`. -/
def mkBasicLayer {T : Type} (group : ℕ) (cs : List (TransformerBlockCfg T))
    (him : T → T → T) : BasicLayerM T where
  group := group
  blocks := cs.map (mkTransformerBlock group)
  him := him

/-- The submodules of `Transformer` (lines 298-392), each an opaque function
with its weights baked in; stage submodules (`BasicLayer` instances) take the
feature tensor and an optional prior, as `BasicLayer.forward` does. The six
encoder-branch submodules built at lines 360-368 (`encoder_level1`,
`down1_2`, `encoder_level2`, `down2_3`, `encoder_level3`, `down3_4`) are
present as fields exactly as they are present in the module's parameter
list. -/
structure TransformerM (T : Type) where
  mae_encoder : T → T
  linear_layer : T → T
  channel_expand_layer : T → T
  conv_layer : T → T
  upsample_layer : T → T
  channel_increase_layer_level3 : T → T
  channel_increase_layer_level2 : T → T
  channel_increase_layer_level1 : T → T
  down_1 : T → T
  down_2 : T → T
  patch_embed : T → T
  channel_reducer : T → T
  encoder_level1 : T → Option T → T
  down1_2 : T → T
  encoder_level2 : T → Option T → T
  down2_3 : T → T
  encoder_level3 : T → Option T → T
  down3_4 : T → T
  latent : T → Option T → T
  up4_3 : T → T
  reduce_chan_level3 : T → T
  decoder_level3 : T → Option T → T
  up3_2 : T → T
  reduce_chan_level2 : T → T
  decoder_level2 : T → Option T → T
  up2_1 : T → T
  decoder_level1 : T → Option T → T
  refinement : T → Option T → T
  dual_pixel_task : Bool
  skip_conv : T → T
  output : T → T

/-- `Transformer.forward` (lines 400-487), active code path. The prior
argument defaults to `None` in the source; `self.down_1(prior_1)` (line 407)
is applied to it unconditionally, and its leading einops `Rearrange` raises
on `None` — modelled by returning `none`. With a tensor prior, the pipeline
is patch embedding, channel reduction, the MAE encoder with its adapters,
the latent stage (with `prior_3`), the three decoder levels (with `prior_2`,
`prior_2`, `prior_1`), refinement (with `prior_1`), and the output projection
with its residual; the dual-pixel branch instead adds `skip_conv` of the
(reassigned, channel-reduced) `inp_enc_level1`. -/
def TransformerM.forward {T : Type} (ops : TensorOps T) (m : TransformerM T)
    (inp_img : T) (prior : Option T) : Option T :=
  match prior with
  | none => none
  | some prior_1 =>
      let prior_2 := m.down_1 prior_1
      let prior_3 := ops.flatten1 (m.down_2 prior_2)
      let inp_enc_level1 := m.patch_embed inp_img
      let inp_enc_level1 := m.channel_reducer inp_enc_level1
      let mae_output := m.mae_encoder inp_enc_level1
      let mae_output := ops.permute021 mae_output
      let mae_output := m.linear_layer mae_output
      let mae_output := ops.view64x14x14 mae_output
      let mae_output := m.channel_expand_layer mae_output
      let mae_output := m.conv_layer mae_output
      let mae_output := m.upsample_layer mae_output
      let latent := m.latent mae_output (some prior_3)
      let inp_dec_level3 := m.up4_3 latent
      let inp_dec_level3 := m.channel_increase_layer_level3 inp_dec_level3
      let inp_dec_level3 := m.reduce_chan_level3 inp_dec_level3
      let out_dec_level3 := m.decoder_level3 inp_dec_level3 (some prior_2)
      let inp_dec_level2 := m.up3_2 out_dec_level3
      let inp_dec_level2 := m.channel_increase_layer_level2 inp_dec_level2
      let inp_dec_level2 := m.reduce_chan_level2 inp_dec_level2
      let out_dec_level2 := m.decoder_level2 inp_dec_level2 (some prior_2)
      let inp_dec_level1 := m.up2_1 out_dec_level2
      let inp_dec_level1 := m.channel_increase_layer_level1 inp_dec_level1
      let out_dec_level1 := m.decoder_level1 inp_dec_level1 (some prior_1)
      let out_dec_level1 := m.refinement out_dec_level1 (some prior_1)
      if m.dual_pixel_task then
        some (m.output (ops.add out_dec_level1 (m.skip_conv inp_enc_level1)))
      else
        some (ops.add (m.output out_dec_level1) inp_img)

/-- A concrete `TensorOps` instance over `ℕ`, used to instantiate the
symbolic theorems on concrete inputs. -/
def opsNat : TensorOps ℕ where
  add := Nat.add
  mul := Nat.mul
  unsqueeze2 := id
  gelu := id
  chunk2 := fun t => (t, t)
  chunk3 := fun t => (t, t, t)
  splitHeads := id
  mergeHeads := id
  normalize := id
  transposeLast2 := id
  matmul := Nat.add
  softmax := id
  permute021 := id
  view64x14x14 := id
  flatten1 := id

/-!
## Real-valued semantics of the normalization layers and the attention core

Tensors are total functions on `Fin`-indexed axes over `ℝ` (the idealized
real semantics of the float tensors). `torch.Tensor.var(-1, unbiased=False)`
is the mean of squared deviations over the trailing axis.
-/

/-- `x.mean(-1, keepdim=True)` restricted to one trailing-axis fiber. -/
noncomputable def tmean {n : ℕ} (x : Fin n → ℝ) : ℝ := (∑ i, x i) / n

/-- `x.var(-1, keepdim=True, unbiased=False)` restricted to one trailing-axis
fiber: the mean of the squared deviations from the mean. -/
noncomputable def tvar {n : ℕ} (x : Fin n → ℝ) : ℝ := (∑ i, (x i - tmean x) ^ 2) / n

/-- `BiasFree_LayerNorm.forward` (lines 42-44) on one trailing-axis fiber:
`x / torch.sqrt(sigma + 1e-5) * self.weight` with
`sigma = x.var(-1, keepdim=True, unbiased=False)`. -/
noncomputable def BiasFree_LayerNorm_forward {n : ℕ} (weight : Fin n → ℝ)
    (x : Fin n → ℝ) : Fin n → ℝ :=
  fun i => x i / Real.sqrt (tvar x + 1e-5) * weight i

/-- `WithBias_LayerNorm.forward` (lines 59-62) on one trailing-axis fiber:
`(x - mu) / torch.sqrt(sigma + 1e-5) * self.weight + self.bias`. -/
noncomputable def WithBias_LayerNorm_forward {n : ℕ} (weight bias : Fin n → ℝ)
    (x : Fin n → ℝ) : Fin n → ℝ :=
  fun i => (x i - tmean x) / Real.sqrt (tvar x + 1e-5) * weight i + bias i

/-- `to_3d` (lines 24-25): `rearrange(x, 'b c h w -> b (h w) c')`; the
flattened token index `t` decomposes as `t = hi * w + wi`. -/
noncomputable def to_3d {b c h w : ℕ} (x : Fin b → Fin c → Fin h → Fin w → ℝ) :
    Fin b → Fin (h * w) → Fin c → ℝ :=
  fun bi t ci =>
    have hw : 0 < w := by
      rcases Nat.eq_zero_or_pos w with h0 | h0
      · exact absurd t.isLt (by simp [h0])
      · exact h0
    x bi ci ⟨t.1 / w, Nat.div_lt_of_lt_mul (Nat.mul_comm h w ▸ t.isLt)⟩ ⟨t.1 % w, Nat.mod_lt _ hw⟩

/-- `to_4d` (lines 27-28): `rearrange(x, 'b (h w) c -> b c h w', h=h, w=w)`. -/
noncomputable def to_4d {b c h w : ℕ} (y : Fin b → Fin (h * w) → Fin c → ℝ) :
    Fin b → Fin c → Fin h → Fin w → ℝ :=
  fun bi ci hi wi =>
    y bi ⟨hi.1 * w + wi.1, by
      calc hi.1 * w + wi.1 < hi.1 * w + w := Nat.add_lt_add_left wi.isLt _
        _ = (hi.1 + 1) * w := (Nat.succ_mul hi.1 w).symm
        _ ≤ h * w := Nat.mul_le_mul_right w hi.isLt⟩ ci

/-- `LayerNorm.forward` (lines 73-75) with a `BiasFree_LayerNorm` body:
`to_4d(self.body(to_3d(x)), h, w)`, the body normalizing the trailing
(channel) axis of the 3-D view. -/
noncomputable def LayerNorm_forward_BiasFree {b c h w : ℕ} (weight : Fin c → ℝ)
    (x : Fin b → Fin c → Fin h → Fin w → ℝ) : Fin b → Fin c → Fin h → Fin w → ℝ :=
  to_4d (fun bi t => BiasFree_LayerNorm_forward weight (to_3d x bi t))

/-- `LayerNorm.forward` (lines 73-75) with a `WithBias_LayerNorm` body. -/
noncomputable def LayerNorm_forward_WithBias {b c h w : ℕ} (weight bias : Fin c → ℝ)
    (x : Fin b → Fin c → Fin h → Fin w → ℝ) : Fin b → Fin c → Fin h → Fin w → ℝ :=
  to_4d (fun bi t => WithBias_LayerNorm_forward weight bias (to_3d x bi t))

/-!
## Real-valued semantics of the attention pipeline after the head split

One batch element; `q k v : Fin heads → Fin c → Fin n → ℝ` are the tensors of
line 152-154, indexed by head, per-head channel, and flattened spatial
position `n = h * w`.
-/

/-- `Attention.forward`, lines 156-166, translated literally: both
`F.normalize(q, dim=-1)` calls divide each (head, channel) fiber by
`max(l2norm, 1e-12)` over the trailing flattened-spatial axis; the scores
`q @ k.transpose(-2, -1)` are multiplied by the per-head temperature,
softmaxed over the trailing (key) axis, and applied to `v`. -/
noncomputable def Attention_forward_core (heads c n : ℕ) (temperature : Fin heads → ℝ)
    (q k v : Fin heads → Fin c → Fin n → ℝ) : Fin heads → Fin c → Fin n → ℝ :=
  fun hh i t =>
    let qn : Fin heads → Fin c → Fin n → ℝ :=
      fun a i2 s => q a i2 s / max (Real.sqrt (∑ s2, q a i2 s2 ^ 2)) 1e-12
    let kn : Fin heads → Fin c → Fin n → ℝ :=
      fun a i2 s => k a i2 s / max (Real.sqrt (∑ s2, k a i2 s2 ^ 2)) 1e-12
    let attn : Fin heads → Fin c → Fin c → ℝ :=
      fun a i2 j => (∑ s, qn a i2 s * kn a j s) * temperature a
    ∑ j, (Real.exp (attn hh i j) / ∑ j2, Real.exp (attn hh i j2)) * v hh j t

/-- L2 normalization of each (head, channel) fiber along the flattened
spatial (token) axis — the axis `dim=-1` of the `'b head c (h w)'` layout. -/
noncomputable def l2NormalizeSpatial {heads c n : ℕ}
    (q : Fin heads → Fin c → Fin n → ℝ) : Fin heads → Fin c → Fin n → ℝ :=
  fun a i s => q a i s / max (Real.sqrt (∑ s2, q a i s2 ^ 2)) 1e-12

/-- L2 normalization along the per-head channel axis (the axis the claim
names), for comparison with the code. -/
noncomputable def l2NormalizeChannel {heads c n : ℕ}
    (q : Fin heads → Fin c → Fin n → ℝ) : Fin heads → Fin c → Fin n → ℝ :=
  fun a i s => q a i s / max (Real.sqrt (∑ i2, q a i2 s ^ 2)) 1e-12

/-- The channel-to-channel score matrix `(q @ k.transpose(-2, -1)) *
temperature`. -/
noncomputable def scaledScores {heads c n : ℕ} (temperature : Fin heads → ℝ)
    (qn kn : Fin heads → Fin c → Fin n → ℝ) : Fin heads → Fin c → Fin c → ℝ :=
  fun a i j => (∑ s, qn a i s * kn a j s) * temperature a

/-- `attn.softmax(dim=-1)`: softmax over the trailing (key) axis. -/
noncomputable def softmaxKeys {heads c : ℕ} (attn : Fin heads → Fin c → Fin c → ℝ) :
    Fin heads → Fin c → Fin c → ℝ :=
  fun a i j => Real.exp (attn a i j) / ∑ j2, Real.exp (attn a i j2)

/-- `attn @ v`. -/
noncomputable def applyToValues {heads c n : ℕ}
    (sm : Fin heads → Fin c → Fin c → ℝ) (v : Fin heads → Fin c → Fin n → ℝ) :
    Fin heads → Fin c → Fin n → ℝ :=
  fun a i t => ∑ j, sm a i j * v a j t

/-- `rearrange(out, 'b head c (h w) -> b (head c) h w')` on the value level:
the flat channel index decomposes as `head * c + channel`. -/
noncomputable def mergeHeadsVal {heads c n : ℕ}
    (x : Fin heads → Fin c → Fin n → ℝ) : Fin (heads * c) → Fin n → ℝ :=
  fun ch t =>
    have hc : 0 < c := by
      rcases Nat.eq_zero_or_pos c with h0 | h0
      · exact absurd ch.isLt (by simp [h0])
      · exact h0
    x ⟨ch.1 / c, Nat.div_lt_of_lt_mul (Nat.mul_comm heads c ▸ ch.isLt)⟩ ⟨ch.1 % c, Nat.mod_lt _ hc⟩ t

/-- `self.project_out` (line 135), a 1x1 convolution: a linear map across the
channel axis at each spatial position, with an optional bias. -/
noncomputable def conv1x1 {C C2 n : ℕ} (W : Fin C2 → Fin C → ℝ) (bias : Fin C2 → ℝ)
    (x : Fin C → Fin n → ℝ) : Fin C2 → Fin n → ℝ :=
  fun o t => (∑ i, W o i * x i t) + bias o

/-- `Attention.forward` from the head split (line 152) to `project_out`
(line 166): the literally-translated core, merged back to the flat channel
layout and projected. -/
noncomputable def Attention_forward_afterSplit (heads c n : ℕ)
    (temperature : Fin heads → ℝ) (q k v : Fin heads → Fin c → Fin n → ℝ)
    (W : Fin (heads * c) → Fin (heads * c) → ℝ) (bias : Fin (heads * c) → ℝ) :
    Fin (heads * c) → Fin n → ℝ :=
  conv1x1 W bias (mergeHeadsVal (Attention_forward_core heads c n temperature q k v))

/-- The pipeline exactly as the claim words it — with the L2 normalization
taken along the channel axis — for comparison with the code. -/
noncomputable def Attention_spec_channelNorm (heads c n : ℕ)
    (temperature : Fin heads → ℝ) (q k v : Fin heads → Fin c → Fin n → ℝ)
    (W : Fin (heads * c) → Fin (heads * c) → ℝ) (bias : Fin (heads * c) → ℝ) :
    Fin (heads * c) → Fin n → ℝ :=
  conv1x1 W bias (mergeHeadsVal (applyToValues
    (softmaxKeys (scaledScores temperature (l2NormalizeChannel q) (l2NormalizeChannel k))) v))

/-- Concrete query/key tensor for the normalization-axis counterexample:
one head, two channels, one spatial position; channel 0 holds 3, channel 1
holds 4. -/
noncomputable def qEx : Fin 1 → Fin 2 → Fin 1 → ℝ :=
  fun _ i _ => if i.1 = 0 then 3 else 4

/-- Concrete value tensor: channel 0 holds 1, channel 1 holds 0, so the
output at channel 0 reads off the first softmax weight. -/
noncomputable def vEx : Fin 1 → Fin 2 → Fin 1 → ℝ :=
  fun _ j _ => if j.1 = 0 then 1 else 0

/-- Concrete per-head temperature 1 (its initialization at line 131). -/
noncomputable def tempEx : Fin 1 → ℝ := fun _ => 1

/-- Identity weights for `project_out` in the counterexample. -/
noncomputable def wEx : Fin (1 * 2) → Fin (1 * 2) → ℝ :=
  fun o i => if o = i then 1 else 0

/-- Zero bias for `project_out` in the counterexample. -/
noncomputable def bEx : Fin (1 * 2) → ℝ := fun _ => 0

/-- A concrete block-submodule assignment over `ℕ` for witnesses. -/
def blockCfgNat : TransformerBlockCfg ℕ where
  norm1 := id
  qkv := id
  qkv_dwconv := id
  attn_project_out := id
  attn_temperature := 1
  attn_ln1 := fun p => p + 1
  attn_ln2 := fun p => p + 2
  norm2 := id
  project_in := id
  dwconv := id
  ffn_project_out := id
  ffn_ln1 := fun p => p + 3
  ffn_ln2 := fun p => p + 4

/-- A concrete fusion function over `ℕ` for witnesses. -/
def himNat : ℕ → ℕ → ℕ := fun a b => a * 100 + b

/-- A concrete `BasicLayer` instance over `ℕ` with `group = 2`, for the
witness of the stage-dataflow theorem. -/
def layerNatG2 : BasicLayerM ℕ where
  group := 2
  blocks := [mkTransformerBlock 2 blockCfgNat]
  him := himNat

/-!
## Shape evaluation lemmas

Evaluation rules for the shape functions on the concrete shapes of the
default pipeline, with the batch size left symbolic.
-/

theorem broadcastDim_self (x : ℕ) : broadcastDim x x = some x := by
  simp [broadcastDim]

theorem broadcastDim_one_right (x : ℕ) : broadcastDim x 1 = some x := by
  by_cases h : x = 1 <;> simp [broadcastDim, h]

theorem broadcastDim_one_left (y : ℕ) : broadcastDim 1 y = some y := by
  by_cases h : y = 1 <;> simp [broadcastDim, h]

theorem bcastRev_self : ∀ l : List ℕ, bcastRev l l = some l
  | [] => rfl
  | x :: xs => by simp [bcastRev, broadcastDim_self, bcastRev_self xs]

theorem broadcastShape_self (s : Shape) : broadcastShape s s = some s := by
  simp [broadcastShape, bcastRev_self]

theorem iterBlocks_fix (f : Shape → Option Shape) (x : Shape) (hf : f x = some x) :
    ∀ n, iterBlocks f n x = some x
  | 0 => rfl
  | n + 1 => by simp [iterBlocks, hf, iterBlocks_fix f x hf n]

theorem lnBody3 (d b n : ℕ) :
    layerNormBodyShape d [b, n, d] = some [b, n, d] := by
  simp [layerNormBodyShape, lastDimTo1, broadcastShape, bcastRev,
    broadcastDim_self, broadcastDim_one_right, broadcastDim_one_left]

theorem lnShape4 (d b h w : ℕ) :
    layerNormShape d [b, d, h, w] = some [b, d, h, w] := by
  simp [layerNormShape, lnBody3, to4dShape]

theorem bshape4_ones (b c h w : ℕ) :
    broadcastShape [b, c, h, w] [b, c, 1, 1] = some [b, c, h, w] := by
  simp [broadcastShape, bcastRev, broadcastDim_self, broadcastDim_one_right]

theorem bshape_temp (b hd c : ℕ) :
    broadcastShape [b, hd, c, c] [hd, 1, 1] = some [b, hd, c, c] := by
  simp [broadcastShape, bcastRev, broadcastDim_self, broadcastDim_one_right]

theorem conv2d_eval (cin cout b c h w : ℕ) (hc : c = cin) :
    conv2dShape cin cout [b, c, h, w] = some [b, cout, h, w] := by
  simp [conv2dShape, hc]

theorem linear3_eval (din dout b n c : ℕ) (hc : c = din) :
    linearShape din dout [b, n, c] = some [b, n, dout] := by
  simp [linearShape, hc]

theorem linear2_eval (din dout b c : ℕ) (hc : c = din) :
    linearShape din dout [b, c] = some [b, dout] := by
  simp [linearShape, hc]

theorem chunk1_eval (parts b c h w : ℕ) (hc : c % parts = 0) :
    chunkDim1Shape parts [b, c, h, w] = some [b, c / parts, h, w] := by
  simp [chunkDim1Shape, hc]

theorem chunkLast2_eval (b n c : ℕ) (hc : c % 2 = 0) :
    chunkLast2Shape [b, n, c] = some [b, n, c / 2] := by
  simp [chunkLast2Shape, hc]

theorem split_eval (hd b c h w : ℕ) (hc : c % hd = 0) :
    splitHeadsShape hd [b, c, h, w] = some [b, hd, c / hd, h * w] := by
  simp [splitHeadsShape, hc]

theorem merge_eval (hd h w b c n : ℕ) (hn : n = h * w) :
    mergeHeadsShape hd h w [b, hd, c, n] = some [b, hd * c, h, w] := by
  simp [mergeHeadsShape, hn]

theorem splitTok_eval (hd b n c : ℕ) (hc : c % hd = 0) :
    splitTokHeadsShape hd [b, n, c] = some [b, hd, n, c / hd] := by
  simp [splitTokHeadsShape, hc]

theorem mergeTok_eval (hd b n c : ℕ) :
    mergeTokHeadsShape hd [b, hd, n, c] = some [b, n, hd * c] := by
  simp [mergeTokHeadsShape]

theorem matmul_eval (b hh m k p : ℕ) :
    matmul4Shape [b, hh, m, k] [b, hh, k, p] = some [b, hh, m, p] := by
  simp [matmul4Shape, broadcastDim_self]

theorem transpose_eval (a b x y : ℕ) :
    transposeLast2Shape [a, b, x, y] = some [a, b, y, x] := rfl

theorem to4d_eval (h w b n c : ℕ) (hn : n = h * w) :
    to4dShape h w [b, n, c] = some [b, c, h, w] := by
  simp [to4dShape, hn]

theorem film_none (dim embed4 group : ℕ) (x : Shape) :
    filmShape dim embed4 group x none = some x := rfl

theorem film1_eval (dim embed4 b c h w e : ℕ) (hc : c = dim) (he : e = embed4) :
    filmShape dim embed4 1 [b, c, h, w] (some [b, e]) = some [b, c, h, w] := by
  simp [filmShape, linear2_eval, hc, he, bshape4_ones]

theorem psh_eval (b c h w : ℕ) (hc : c % 4 = 0) :
    pixelShuffle2Shape [b, c, h, w] = some [b, c / 4, 2 * h, 2 * w] := by
  simp [pixelShuffle2Shape, hc]

/-!
## Stage lemmas for the default configuration, symbolic batch size
-/

theorem attn384 (b : ℕ) :
    attentionShape 384 8 192 1 [b, 384, 28, 28] (some [b, 192]) = some [b, 384, 28, 28] := by
  simp [attentionShape, attentionShapeCore, film1_eval, conv2d_eval, chunk1_eval,
    split_eval, transpose_eval, matmul_eval, bshape_temp, merge_eval]

theorem attn192 (b : ℕ) :
    attentionShape 192 4 192 2 [b, 192, 56, 56] none = some [b, 192, 56, 56] := by
  simp [attentionShape, attentionShapeCore, film_none, conv2d_eval, chunk1_eval,
    split_eval, transpose_eval, matmul_eval, bshape_temp, merge_eval]

theorem attn96h2 (b : ℕ) :
    attentionShape 96 2 192 2 [b, 96, 112, 112] none = some [b, 96, 112, 112] := by
  simp [attentionShape, attentionShapeCore, film_none, conv2d_eval, chunk1_eval,
    split_eval, transpose_eval, matmul_eval, bshape_temp, merge_eval]

theorem attn96h1 (b : ℕ) :
    attentionShape 96 1 192 4 [b, 96, 224, 224] none = some [b, 96, 224, 224] := by
  simp [attentionShape, attentionShapeCore, film_none, conv2d_eval, chunk1_eval,
    split_eval, transpose_eval, matmul_eval, bshape_temp, merge_eval]

theorem ffn384 (b : ℕ) :
    feedForwardShape 384 1021 192 1 [b, 384, 28, 28] (some [b, 192]) = some [b, 384, 28, 28] := by
  simp [feedForwardShape, film1_eval, conv2d_eval, chunk1_eval, broadcastShape_self]

theorem ffn192 (b : ℕ) :
    feedForwardShape 192 510 192 2 [b, 192, 56, 56] none = some [b, 192, 56, 56] := by
  simp [feedForwardShape, film_none, conv2d_eval, chunk1_eval, broadcastShape_self]

theorem ffn96g2 (b : ℕ) :
    feedForwardShape 96 255 192 2 [b, 96, 112, 112] none = some [b, 96, 112, 112] := by
  simp [feedForwardShape, film_none, conv2d_eval, chunk1_eval, broadcastShape_self]

theorem ffn96g4 (b : ℕ) :
    feedForwardShape 96 255 192 4 [b, 96, 224, 224] none = some [b, 96, 224, 224] := by
  simp [feedForwardShape, film_none, conv2d_eval, chunk1_eval, broadcastShape_self]

theorem blk384 (b : ℕ) :
    transformerBlockShape 384 8 1021 192 1 [b, 384, 28, 28] (some [b, 192])
      = some [b, 384, 28, 28] := by
  simp [transformerBlockShape, lnShape4, attn384, ffn384, broadcastShape_self]

theorem blk192 (b : ℕ) :
    transformerBlockShape 192 4 510 192 2 [b, 192, 56, 56] none = some [b, 192, 56, 56] := by
  simp [transformerBlockShape, lnShape4, attn192, ffn192, broadcastShape_self]

theorem blk96h2 (b : ℕ) :
    transformerBlockShape 96 2 255 192 2 [b, 96, 112, 112] none = some [b, 96, 112, 112] := by
  simp [transformerBlockShape, lnShape4, attn96h2, ffn96g2, broadcastShape_self]

theorem blk96h1 (b : ℕ) :
    transformerBlockShape 96 1 255 192 4 [b, 96, 224, 224] none = some [b, 96, 224, 224] := by
  simp [transformerBlockShape, lnShape4, attn96h1, ffn96g4, broadcastShape_self]

theorem him192 (b : ℕ) :
    himShape 192 4 192 [b, 192, 56, 56] [b, 4, 192] = some [b, 192, 56, 56] := by
  simp [himShape, himShapeCore, lnBody3, linear3_eval, chunkLast2_eval, splitTok_eval,
    transpose_eval, matmul_eval, mergeTok_eval, broadcastShape_self, to4d_eval]

theorem him96t2 (b : ℕ) :
    himShape 96 2 192 [b, 96, 112, 112] [b, 4, 192] = some [b, 96, 112, 112] := by
  simp [himShape, himShapeCore, lnBody3, linear3_eval, chunkLast2_eval, splitTok_eval,
    transpose_eval, matmul_eval, mergeTok_eval, broadcastShape_self, to4d_eval]

theorem him96t1 (b : ℕ) :
    himShape 96 1 192 [b, 96, 224, 224] [b, 16, 192] = some [b, 96, 224, 224] := by
  simp [himShape, himShapeCore, lnBody3, linear3_eval, chunkLast2_eval, splitTok_eval,
    transpose_eval, matmul_eval, mergeTok_eval, broadcastShape_self, to4d_eval]

theorem stageLat (b : ℕ) :
    basicLayerShape 384 8 1021 192 1 8 [b, 384, 28, 28] (some [b, 192])
      = some [b, 384, 28, 28] := by
  simp only [basicLayerShape]
  rw [if_neg (by norm_num)]
  exact iterBlocks_fix _ _ (blk384 b) 8

theorem stageDec3 (b : ℕ) :
    basicLayerShape 192 4 510 192 2 6 [b, 192, 56, 56] (some [b, 4, 192])
      = some [b, 192, 56, 56] := by
  simp only [basicLayerShape]
  rw [if_pos (by norm_num), him192 b, Option.some_bind]
  exact iterBlocks_fix (fun y => transformerBlockShape 192 4 510 192 2 y none)
    [b, 192, 56, 56] (blk192 b) 6

theorem stageDec2 (b : ℕ) :
    basicLayerShape 96 2 255 192 2 6 [b, 96, 112, 112] (some [b, 4, 192])
      = some [b, 96, 112, 112] := by
  simp only [basicLayerShape]
  rw [if_pos (by norm_num), him96t2 b, Option.some_bind]
  exact iterBlocks_fix (fun y => transformerBlockShape 96 2 255 192 2 y none)
    [b, 96, 112, 112] (blk96h2 b) 6

theorem stageDec1 (b n : ℕ) :
    basicLayerShape 96 1 255 192 4 n [b, 96, 224, 224] (some [b, 16, 192])
      = some [b, 96, 224, 224] := by
  simp only [basicLayerShape]
  rw [if_pos (by norm_num), him96t1 b, Option.some_bind]
  exact iterBlocks_fix (fun y => transformerBlockShape 96 1 255 192 4 y none)
    [b, 96, 224, 224] (blk96h1 b) n

theorem ups384 (b : ℕ) :
    upsampleShape 384 [b, 384, 28, 28] = some [b, 192, 56, 56] := by
  simp [upsampleShape, conv2d_eval, psh_eval]

theorem ups192 (b : ℕ) :
    upsampleShape 192 [b, 192, 56, 56] = some [b, 96, 112, 112] := by
  simp [upsampleShape, conv2d_eval, psh_eval]

theorem ups96 (b : ℕ) :
    upsampleShape 96 [b, 96, 112, 112] = some [b, 48, 224, 224] := by
  simp [upsampleShape, conv2d_eval, psh_eval]

theorem down1_eval (b : ℕ) :
    down1Shape defaultCfg [b, 16, 192] = some [b, 4, 192] := by
  simp [down1Shape, defaultCfg, permute021Shape, linear3_eval]

theorem down2_eval (b : ℕ) :
    down2FlattenShape defaultCfg [b, 4, 192] = some [b, 192] := by
  simp [down2FlattenShape, defaultCfg, permute021Shape, linear3_eval, flatten1Shape]

theorem maeAdapter_eval (b : ℕ) :
    maeAdapterShape defaultCfg [b, 3, 224, 224] = some [b, 384, 28, 28] := by
  simp [maeAdapterShape, defaultCfg, maeShape, permute021Shape, linear3_eval,
    viewTo64x14x14Shape, conv2d_eval, upsampleTo28Shape]

theorem dcfg_inp : defaultCfg.inp_channels = 3 := rfl

theorem dcfg_out : defaultCfg.out_channels = 3 := rfl

theorem dcfg_dim : defaultCfg.dim = 48 := rfl

theorem dcfg_dpt : defaultCfg.dual_pixel_task = false := rfl

theorem dcfg_group : defaultCfg.group = 4 := rfl

theorem dcfg_ed : defaultCfg.embed_dim = 48 := rfl

theorem dcfg_nrb : defaultCfg.num_refinement_blocks = 4 := rfl

theorem dcfg_heads3 : defaultCfg.heads.getD 3 1 = 8 := rfl

theorem dcfg_heads2 : defaultCfg.heads.getD 2 1 = 4 := rfl

theorem dcfg_heads1 : defaultCfg.heads.getD 1 1 = 2 := rfl

theorem dcfg_heads0 : defaultCfg.heads.getD 0 1 = 1 := rfl

theorem dcfg_nb3 : defaultCfg.num_blocks.getD 3 1 = 8 := rfl

theorem dcfg_nb2 : defaultCfg.num_blocks.getD 2 1 = 6 := rfl

theorem dcfg_nb1 : defaultCfg.num_blocks.getD 1 1 = 6 := rfl

theorem dcfg_nb0 : defaultCfg.num_blocks.getD 0 1 = 4 := rfl

theorem dcfg_hf384 : defaultCfg.hf 384 = 1021 := rfl

theorem dcfg_hf192 : defaultCfg.hf 192 = 510 := rfl

theorem dcfg_hf96 : defaultCfg.hf 96 = 255 := rfl

theorem someBind {Z W : Type} (a : Z) (f : Z → Option W) :
    ((some a : Option Z) >>= f) = f a := rfl

/-- One step through an `Option` bind chain: if the head computation yields
`some v`, the chain continues at `f v`. -/
theorem optStep {A B : Type} {x : Option A} {v : A} (f : A → Option B)
    (h : x = some v) {w : Option B} (hf : f v = w) : (x >>= f) = w := by
  rw [h, someBind, hf]

theorem decoder_eval (b : ℕ) :
    decoderShape defaultCfg [b, 384, 28, 28] [b, 16, 192] [b, 4, 192] [b, 192]
      = some [b, 96, 224, 224] := by
  refine optStep _ (stageLat b) ?_
  refine optStep _ (ups384 b) ?_
  refine optStep _ (conv2d_eval 192 384 b 192 56 56 rfl) ?_
  refine optStep _ (conv2d_eval 384 192 b 384 56 56 rfl) ?_
  refine optStep _ (stageDec3 b) ?_
  refine optStep _ (ups192 b) ?_
  refine optStep _ (conv2d_eval 96 192 b 96 112 112 rfl) ?_
  refine optStep _ (conv2d_eval 192 96 b 192 112 112 rfl) ?_
  refine optStep _ (stageDec2 b) ?_
  refine optStep _ (ups96 b) ?_
  refine optStep _ (conv2d_eval 48 96 b 48 224 224 rfl) ?_
  refine optStep _ (stageDec1 b 4) ?_
  exact stageDec1 b 4

/-!
## Claims C1, C3, C8 (shape behaviour of the forward pass)
-/

/-- C1, counterexample: under the default configuration, an input of shape
(1, 3, 8, 8) — batch 1 and spatial size 8, a multiple of 8 — together with a
compatible prior of shape (1, 16, 192) does not produce an output of shape
(1, 3, 8, 8); the forward pass raises a shape error (the decoder emits a
fixed 224 x 224 tensor whose residual addition with the 8 x 8 input fails),
so the claim as stated is false. -/
theorem C1_counterexample :
    transformerShape defaultCfg [1, 3, 8, 8] (some [1, 16, 192]) = none := by
  decide

/-- C1, amended: for the default configuration and every batch size B,
`Transformer.forward` on an image of shape (B, 3, 224, 224) with a compatible
prior of shape (B, 16, 192) returns a tensor of shape
(B, out_channels, 224, 224) = (B, 3, 224, 224), the same spatial size as the
input. 224 x 224 is the only spatial size this holds for: the decoder
produces a fixed 224 x 224 output from the fixed 28 x 28 latent, so for any
other input height or width (multiples of 8 included) the final residual
addition `self.output(out_dec_level1) + inp_img` is a fatal shape error
rather than an output of the input's size. -/
theorem C1_spatial_size (b : ℕ) :
    transformerShape defaultCfg [b, 3, 224, 224] (some [b, 16, 192])
      = some [b, 3, 224, 224] := by
  simp only [transformerShape, dcfg_inp, dcfg_out, dcfg_dim, dcfg_dpt,
    down1_eval, down2_eval, maeAdapter_eval, decoder_eval, someBind,
    Nat.reduceMul, conv2d_eval, Bool.false_eq_true, if_false, broadcastShape_self]

/-- C3, counterexample: under the default configuration, a prior with
N = 32 tokens — divisible by group squared = 16 — raises a shape error on a
(1, 3, 224, 224) image: `down_1`'s `nn.Linear(16, 4)` requires the token
axis to be exactly 16, so the claim as stated is false. -/
theorem C3_counterexample :
    transformerShape defaultCfg [1, 3, 224, 224] (some [1, 32, 192]) = none := by
  decide

/-- C3, amended: under the default configuration (dim=48,
num_blocks=[4,6,6,8], heads=[1,2,4,8], embed_dim=48, group=4),
`Transformer.forward` on a (1, 3, 224, 224) image and a (1, N, 192) prior
raises no shape error and returns a (1, 3, 224, 224) tensor exactly when the
token count N equals group squared = 16 (not for every multiple of 16):
`down_1` starts with `nn.Linear(group*group, (group*group)//4)`, whose input
axis must be exactly 16. -/
theorem C3_token_count_16 :
    transformerShape defaultCfg [1, 3, 224, 224] (some [1, 16, 192])
      = some [1, 3, 224, 224] := by
  decide

/-- C8, counterexample: `Downsample` constructed for C = 2 channels followed
by `Upsample` constructed for 2C = 4 channels fails on a tensor of shape
(1, 2, 1, 1): `PixelUnshuffle(2)` requires even spatial sizes, so the
round trip does not return a (B, C, H, W) tensor for every input shape and
the claim as stated is false. -/
theorem C8_counterexample :
    (downsampleShape 2 [1, 2, 1, 1]).bind (upsampleShape 4) = none := by
  decide

/-- C8, amended: for every tensor shape (B, C, H, W) with C, H and W even —
written C = 2*c2, H = 2*h2, W = 2*w2 — `Downsample` (constructed for C
channels) yields (B, 2C, H/2, W/2), and `Upsample` (constructed for the
2C-channel result) then restores (B, C, H, W). Evenness of H and W is
required by `PixelUnshuffle(2)`, and evenness of C is required so that the
halved channel count recombines to exactly 2C channels. -/
theorem C8_roundtrip (b c2 h2 w2 : ℕ) :
    downsampleShape (2 * c2) [b, 2 * c2, 2 * h2, 2 * w2]
      = some [b, 2 * (2 * c2), h2, w2] ∧
    (downsampleShape (2 * c2) [b, 2 * c2, 2 * h2, 2 * w2]).bind
        (upsampleShape (2 * (2 * c2)))
      = some [b, 2 * c2, 2 * h2, 2 * w2] := by
  have h24 : 2 * (2 * c2) = 4 * c2 := by ring
  have hmod : 4 * c2 * 2 % 4 = 0 := by omega
  have hdiv : 4 * c2 * 2 / 4 = 2 * c2 := by omega
  rw [h24]
  constructor
  · simp [downsampleShape, conv2dShape, pixelUnshuffle2Shape, Nat.mul_div_cancel_left]
  · simp [downsampleShape, upsampleShape, conv2dShape, pixelUnshuffle2Shape,
      pixelShuffle2Shape, Nat.mul_div_cancel_left, hmod, hdiv]

/-!
## Claims C2, C4, C5, C10 (module composition and control flow)
-/

/-- Propagation of `Except.ok` through the monadic bind. -/
theorem okBind {E A B : Type} (a : A) (f : A → Except E B) :
    ((Except.ok a : Except E A) >>= f) = f a := rfl

/-- Propagation of `Except.error` through the monadic bind. -/
theorem errBind {E A B : Type} (e : E) (f : A → Except E B) :
    ((Except.error e : Except E A) >>= f) = Except.error e := rfl

/-- A `TransformerBlock` run without a prior never raises. -/
theorem mkBlock_forward_ok_none {T : Type} (ops : TensorOps T) (g : ℕ)
    (c : TransformerBlockCfg T) (x : T) :
    ∃ y, (mkTransformerBlock g c).forward ops x none = Except.ok y :=
  ⟨_, rfl⟩

/-- A `TransformerBlock` built with `group = 1` never raises, prior or not. -/
theorem mkBlock_forward_ok_g1 {T : Type} (ops : TensorOps T)
    (c : TransformerBlockCfg T) (x p : T) :
    ∃ y, (mkTransformerBlock 1 c).forward ops x (some p) = Except.ok y :=
  ⟨_, rfl⟩

/-- Folding blocks that all receive no prior never raises. -/
theorem foldBlocks_ok_none {T : Type} (ops : TensorOps T) (g : ℕ)
    (cs : List (TransformerBlockCfg T)) :
    ∀ x, ∃ y, (cs.map (mkTransformerBlock g)).foldlM
        (fun a blk => blk.forward ops a none) x = Except.ok y := by
  induction cs with
  | nil => exact fun x => ⟨x, rfl⟩
  | cons c cs ih =>
      intro x
      obtain ⟨y, hy⟩ := mkBlock_forward_ok_none ops g c x
      obtain ⟨z, hz⟩ := ih y
      exact ⟨z, by simp [List.foldlM_cons, hy, okBind, hz]⟩

/-- Folding blocks built with `group = 1` never raises, for any prior. -/
theorem foldBlocks_ok_g1 {T : Type} (ops : TensorOps T)
    (cs : List (TransformerBlockCfg T)) (pr : Option T) :
    ∀ x, ∃ y, (cs.map (mkTransformerBlock 1)).foldlM
        (fun a blk => blk.forward ops a pr) x = Except.ok y := by
  induction cs with
  | nil => exact fun x => ⟨x, rfl⟩
  | cons c cs ih =>
      intro x
      obtain ⟨y, hy⟩ : ∃ y, (mkTransformerBlock 1 c).forward ops x pr = Except.ok y := by
        cases pr with
        | none => exact mkBlock_forward_ok_none ops 1 c x
        | some p => exact mkBlock_forward_ok_g1 ops c x p
      obtain ⟨z, hz⟩ := ih y
      exact ⟨z, by simp [List.foldlM_cons, hy, okBind, hz]⟩

/-- C2 (code bug in the source): calling `Transformer.forward` with the
prior absent (`prior=None`, the parameter's declared default) does not
succeed for any parameter assignment, any tensor semantics, and any input
image: the multi-scale prior computation `prior_2 = self.down_1(prior_1)`
(line 407) immediately applies an einops `Rearrange` to `None` and raises
before any conditioning, fusion, or stage could execute — contradicting the
spec, under which the call succeeds with no conditioning or fusion and
matches a group-1 model. -/
theorem C2_prior_none_raises {T : Type} (ops : TensorOps T) (m : TransformerM T)
    (img : T) : m.forward ops img none = none := rfl

/-- C4: `Transformer.forward` never invokes the encoder-branch submodules
`encoder_level1`, `down1_2`, `encoder_level2`, `down2_3`, `encoder_level3`,
`down3_4`: for every tensor semantics, input image and prior, two parameter
assignments that differ only in those six submodules yield identical forward
outputs. -/
theorem C4_encoder_branch_unused {T : Type} (ops : TensorOps T) (m : TransformerM T)
    (e1 e2 e3 : T → Option T → T) (d12 d23 d34 : T → T) (img : T) (prior : Option T) :
    TransformerM.forward ops
      { m with encoder_level1 := e1, down1_2 := d12, encoder_level2 := e2,
               down2_3 := d23, encoder_level3 := e3, down3_4 := d34 }
      img prior
    = TransformerM.forward ops m img prior := rfl

/-- C5: for every `BasicLayer`: if its group exceeds 1 and a prior is
supplied, the HIM fusion runs exactly once, before any transformer block,
and every block then receives `prior = None` — the output is the fold of the
blocks with no prior, started from the single fused tensor `him x p`; if its
group equals 1, no fusion runs and every block receives the unfused prior. -/
theorem C5_fusion_dataflow {T : Type} (ops : TensorOps T) (m : BasicLayerM T)
    (x p : T) :
    (1 < m.group →
      m.forward ops x (some p)
        = m.blocks.foldlM (fun a blk => blk.forward ops a none) (m.him x p)) ∧
    (m.group = 1 →
      ∀ pr : Option T,
        m.forward ops x pr = m.blocks.foldlM (fun a blk => blk.forward ops a pr) x) := by
  constructor
  · intro hg
    simp [BasicLayerM.forward, hg]
  · intro hg pr
    cases pr with
    | none => simp [BasicLayerM.forward]
    | some q => simp [BasicLayerM.forward, hg]

/-- C5, witness: the fused branch at a concrete group-2 layer over `ℕ`. -/
theorem C5_fusion_dataflow_witness :
    layerNatG2.forward opsNat 5 (some 7)
      = layerNatG2.blocks.foldlM (fun a blk => blk.forward opsNat a none)
          (layerNatG2.him 5 7) :=
  (C5_fusion_dataflow opsNat layerNatG2 5 7).1 (by decide)

/-- C10, counterexample: the error branch is reachable in
`BasicLayer.forward`: a `BasicLayer` built with `group = 0` (which
`Transformer.__init__` produces at levels 2 and 3 whenever the configured
group is 1, via `group // 2`) passes a non-None prior to blocks that have no
`ln1`/`ln2`, so the forward call raises — the claim that `BasicLayer.forward`
keeps this branch unreachable is false as stated. -/
theorem C10_group0_error :
    (mkBasicLayer 0 [blockCfgNat] himNat).forward opsNat 5 (some 7)
      = Except.error () := rfl

/-- C10, amended: Attention and FeedForward modules constructed with group
not equal to 1 possess no FiLM projections (`ln1 = ln2 = none`) and their
forward with a non-None prior fails; and for every `BasicLayer` whose group
is at least 1 — which covers every stage of the default configuration, whose
groups are 4, 2 and 1 — the error branch is unreachable: `forward` returns
`ok` for every input and prior, because a group above 1 clears the prior to
`None` before any block runs and a group equal to 1 gives every block its
FiLM projections. (For group 0 the error is reachable, see the
counterexample.) -/
theorem C10_film_safety {T : Type} (ops : TensorOps T) (g : ℕ)
    (c : TransformerBlockCfg T) (cs : List (TransformerBlockCfg T))
    (hm : T → T → T) (x p : T) (prior : Option T) :
    (g ≠ 1 →
      (mkAttention g c).ln1 = none ∧ (mkAttention g c).ln2 = none ∧
      (mkFeedForward g c).ln1 = none ∧ (mkFeedForward g c).ln2 = none ∧
      (mkAttention g c).forward ops x (some p) = Except.error () ∧
      (mkFeedForward g c).forward ops x (some p) = Except.error ()) ∧
    (1 ≤ g →
      ∃ y, (mkBasicLayer g cs hm).forward ops x prior = Except.ok y) := by
  constructor
  · intro hg
    refine ⟨?_, ?_, ?_, ?_, ?_, ?_⟩ <;>
      simp [mkAttention, mkFeedForward, hg, AttentionM.forward, FeedForwardM.forward,
        errBind]
  · intro hg
    cases prior with
    | none =>
        simpa [mkBasicLayer, BasicLayerM.forward] using
          foldBlocks_ok_none ops g cs x
    | some q =>
        by_cases h1 : 1 < g
        · simpa [mkBasicLayer, BasicLayerM.forward, h1] using
            foldBlocks_ok_none ops g cs (hm x q)
        · have hg1 : g = 1 := by omega
          subst hg1
          simpa [mkBasicLayer, BasicLayerM.forward] using
            foldBlocks_ok_g1 ops cs (some q) x

/-- C10, witness: the amended theorem at concrete instances over `ℕ`:
a group-2 Attention errors on a prior, and group-2 and group-1 BasicLayers
never error. -/
theorem C10_film_safety_witness :
    (mkAttention 2 blockCfgNat).forward opsNat 5 (some 7) = Except.error () ∧
    (∃ y, (mkBasicLayer 2 [blockCfgNat] himNat).forward opsNat 5 (some 7)
      = Except.ok y) ∧
    (∃ y, (mkBasicLayer 1 [blockCfgNat] himNat).forward opsNat 5 (some 7)
      = Except.ok y) :=
  ⟨((C10_film_safety opsNat 2 blockCfgNat [blockCfgNat] himNat 5 7 (some 7)).1
      (by decide)).2.2.2.2.1,
   (C10_film_safety opsNat 2 blockCfgNat [blockCfgNat] himNat 5 7 (some 7)).2
      (by decide),
   (C10_film_safety opsNat 1 blockCfgNat [blockCfgNat] himNat 5 7 (some 7)).2
      (by decide)⟩

/-!
## Claims C7, C9, C6 (value semantics of normalization and attention)
-/

theorem tmean_shift {n : ℕ} (x : Fin n → ℝ) (c : ℝ) (hn : 0 < n) :
    tmean (fun i => x i + c) = tmean x + c := by
  unfold tmean
  rw [Finset.sum_add_distrib, Finset.sum_const, Finset.card_univ, Fintype.card_fin,
    nsmul_eq_mul, add_div, mul_div_assoc]
  have : (n : ℝ) ≠ 0 := Nat.cast_ne_zero.mpr hn.ne'
  field_simp

theorem tvar_shift {n : ℕ} (x : Fin n → ℝ) (c : ℝ) (hn : 0 < n) :
    tvar (fun i => x i + c) = tvar x := by
  unfold tvar
  rw [tmean_shift x c hn]
  congr 1
  refine Finset.sum_congr rfl fun i _ => ?_
  ring

/-- C9: `WithBias_LayerNorm.forward` is invariant under a uniform shift of
the channel values: adding a constant `c` to every channel leaves the output
unchanged, because the subtracted mean absorbs the shift and the variance is
unchanged. -/
theorem C9_shift_invariance {n : ℕ} (weight bias x : Fin n → ℝ) (c : ℝ) :
    WithBias_LayerNorm_forward weight bias (fun i => x i + c)
      = WithBias_LayerNorm_forward weight bias x := by
  funext i
  have hn : 0 < n := i.pos
  unfold WithBias_LayerNorm_forward
  rw [tmean_shift x c hn, tvar_shift x c hn]
  ring_nf

theorem flat_div {h w : ℕ} (hi : Fin h) (wi : Fin w) :
    (hi.1 * w + wi.1) / w = hi.1 := by
  rw [Nat.mul_comm hi.1 w, Nat.mul_add_div wi.pos, Nat.div_eq_of_lt wi.isLt,
    Nat.add_zero]

theorem flat_mod {h w : ℕ} (hi : Fin h) (wi : Fin w) :
    (hi.1 * w + wi.1) % w = wi.1 := by
  rw [Nat.mul_comm hi.1 w, Nat.mul_add_mod, Nat.mod_eq_of_lt wi.isLt]

theorem fin_app_congr {h w : ℕ} (f : Fin h → Fin w → ℝ) {a a2 : Fin h}
    {b b2 : Fin w} (ha : a = a2) (hb : b = b2) : f a b = f a2 b2 := by
  rw [ha, hb]

/-- The `to_3d` view at the flattened token `hi * w + wi` is the channel
fiber of the original tensor at spatial position `(hi, wi)`. -/
theorem to_3d_fiber {b c h w : ℕ} (x : Fin b → Fin c → Fin h → Fin w → ℝ)
    (bi : Fin b) (t : Fin (h * w)) (hi : Fin h) (wi : Fin w)
    (ht : t.1 = hi.1 * w + wi.1) :
    to_3d x bi t = fun ci => x bi ci hi wi := by
  funext ci
  unfold to_3d
  exact fin_app_congr (x bi ci)
    (Fin.ext (by simp only [ht]; exact flat_div hi wi))
    (Fin.ext (by simp only [ht]; exact flat_mod hi wi))

/-- C7: for every input, `BiasFree_LayerNorm.forward` returns x divided by
sqrt(var(x) + 1e-5) times the learned weight with no mean subtraction, and
`WithBias_LayerNorm.forward` returns (x minus mean(x)) divided by
sqrt(var(x) + 1e-5) times the learned weight plus the learned bias — both
computed over the channel axis (the trailing axis of the `to_3d` view) at
each spatial position, with epsilon fixed at 1e-5. -/
theorem C7_layernorm_formula {b c h w : ℕ} (weight bias : Fin c → ℝ)
    (x : Fin b → Fin c → Fin h → Fin w → ℝ) (bi : Fin b) (ci : Fin c)
    (hi : Fin h) (wi : Fin w) :
    LayerNorm_forward_BiasFree weight x bi ci hi wi
      = x bi ci hi wi / Real.sqrt (tvar (fun c2 => x bi c2 hi wi) + 1e-5) * weight ci ∧
    LayerNorm_forward_WithBias weight bias x bi ci hi wi
      = (x bi ci hi wi - tmean (fun c2 => x bi c2 hi wi))
          / Real.sqrt (tvar (fun c2 => x bi c2 hi wi) + 1e-5) * weight ci + bias ci := by
  have hfib := to_3d_fiber x bi
    (⟨hi.1 * w + wi.1, by
      calc hi.1 * w + wi.1 < hi.1 * w + w := Nat.add_lt_add_left wi.isLt _
        _ = (hi.1 + 1) * w := (Nat.succ_mul hi.1 w).symm
        _ ≤ h * w := Nat.mul_le_mul_right w hi.isLt⟩ : Fin (h * w)) hi wi rfl
  constructor
  · show BiasFree_LayerNorm_forward weight (to_3d x bi _) ci = _
    rw [hfib]
    rfl
  · show WithBias_LayerNorm_forward weight bias (to_3d x bi _) ci = _
    rw [hfib]
    rfl

/-- C6, amended: from the head split to the output projection,
`Attention.forward` L2-normalizes queries and keys along the flattened
spatial (token) axis — `dim=-1` of the `'b head c (h w)'` layout, not the
channel axis the claim names — then multiplies the score matrix by the
learned per-head temperature, takes softmax over the key axis, applies the
result to the values, and projects back to the original channel width. -/
theorem C6_attention_pipeline (heads c n : ℕ) (temperature : Fin heads → ℝ)
    (q k v : Fin heads → Fin c → Fin n → ℝ)
    (W : Fin (heads * c) → Fin (heads * c) → ℝ) (bias : Fin (heads * c) → ℝ) :
    Attention_forward_afterSplit heads c n temperature q k v W bias
      = conv1x1 W bias (mergeHeadsVal (applyToValues
          (softmaxKeys (scaledScores temperature
            (l2NormalizeSpatial q) (l2NormalizeSpatial k))) v)) := rfl

theorem sqrt25 : Real.sqrt 25 = 5 := by
  rw [show (25:ℝ) = 5^2 by norm_num, Real.sqrt_sq (by norm_num : (0:ℝ) ≤ 5)]

theorem c6_code_value :
    Attention_forward_afterSplit 1 2 1 tempEx qEx qEx vEx wEx bEx 0 0 = 1/2 := by
  have m3 : (3:ℝ) ⊔ 1e-12 = 3 := max_eq_left (by norm_num)
  have m4 : (4:ℝ) ⊔ 1e-12 = 4 := max_eq_left (by norm_num)
  have hexp : Real.exp 1 ≠ 0 := (Real.exp_pos 1).ne'
  unfold Attention_forward_afterSplit conv1x1 mergeHeadsVal Attention_forward_core
    tempEx qEx vEx wEx bEx
  simp [Fin.sum_univ_two, Fin.sum_univ_one, m3, m4]
  field_simp
  ring

theorem c6_claim_value :
    Attention_spec_channelNorm 1 2 1 tempEx qEx qEx vEx wEx bEx 0 0
      = Real.exp (9/25) / (Real.exp (9/25) + Real.exp (12/25)) := by
  have m5 : (5:ℝ) ⊔ 1e-12 = 5 := max_eq_left (by norm_num)
  have h25 : Real.sqrt ((3:ℝ)^2 + 4^2) = 5 := by
    rw [show ((3:ℝ)^2 + 4^2) = 25 by norm_num, sqrt25]
  unfold Attention_spec_channelNorm conv1x1 mergeHeadsVal applyToValues softmaxKeys
    scaledScores l2NormalizeChannel tempEx qEx vEx wEx bEx
  simp [Fin.sum_univ_two, Fin.sum_univ_one, h25, m5]
  norm_num

/-- C6, counterexample: with one head, two channels, one spatial position,
temperature 1, identity projection and q = k = (3, 4) per channel, the
code's output (which normalizes along the spatial axis) differs from the
claim's pipeline (normalizing along the channel axis): the code yields 1/2
while the claim's pipeline yields exp(9/25) / (exp(9/25) + exp(12/25)), and
these are distinct since exp is injective. So the claim as stated — with
L2 normalization along the channel axis — is false of the code. -/
theorem C6_counterexample :
    Attention_forward_afterSplit 1 2 1 tempEx qEx qEx vEx wEx bEx 0 0
      ≠ Attention_spec_channelNorm 1 2 1 tempEx qEx qEx vEx wEx bEx 0 0 := by
  rw [c6_code_value, c6_claim_value]
  intro h
  have h9 : (0:ℝ) < Real.exp (9/25) := Real.exp_pos _
  have h12 : (0:ℝ) < Real.exp (12/25) := Real.exp_pos _
  rw [div_eq_div_iff (by norm_num) (by positivity)] at h
  have hAB : Real.exp (12/25) = Real.exp (9/25) := by linarith
  have h925 : (12:ℝ)/25 = 9/25 := Real.exp_eq_exp.mp hAB
  norm_num at h925

end TransformerArch
